import Mathlib

/-!
Shallow embedding of the pychan SQL `MERGE INTO` builder
(`src/pychan/sql/merge.py`) and its clause generators
(`src/pychan/sql/utils.py`), together with theorems about them.

Python strings become `String`; `Optional[String]` becomes `Option String`;
Python lists become `List`; the mutable builder object becomes a `structure`
threaded explicitly through each method; the `ValueError`s raised by
`generate` become an explicit error type (`MergeError`), whose two
constructors correspond to the two distinct error messages in the source
(the spec names them `MissingConfigurationError` and `NoActionsError`).
Since `generate` raises before performing any mutation, it is translated as
a function returning the result (`Except`) together with the builder state
after the call.
-/

namespace PyChan

/-- Python truthiness of a string: non-empty. -/
def pyTruthy (s : String) : Bool := s != ""

/-- Python truthiness of an `Optional[String]`: `None` and `""` are falsy. -/
def pyTruthyOpt : Option String → Bool
  | none => false
  | some s => s != ""

/-- Python truthiness of an `Optional[List[...]]`: `None` and `[]` are falsy. -/
def pyTruthyOptList : Option (List String) → Bool
  | none => false
  | some l => !l.isEmpty

/-- Python `sep.join(list)`. -/
def strJoin (sep : String) : List String → String
  | [] => ""
  | [a] => a
  | a :: b :: rest => a ++ sep ++ strJoin sep (b :: rest)

/-- The two `ValueError`s `MergeIntoWriter.generate` can raise, told apart by
their messages: `"Missing required parameters."` and
`"No merge actions provided."`. -/
inductive MergeError where
  | missingConfiguration
  | noActions
deriving DecidableEq, Repr

deriving instance DecidableEq for Except

/-- State of a `MergeIntoWriter` (merge.py, `__init__`): field for field. -/
structure MergeIntoWriter where
  targetAs : String
  sourceAs : String
  tblName : String
  viewName : Option String
  condition : Option String
  matchedActions : List String
  notMatchedActions : List String
  notMatchedBySourceActions : List String
deriving DecidableEq, Repr

/-- Source `MergeIntoWriter.__init__`: aliases fixed to `target`/`source`, no view,
no condition, all three action lists empty. -/
def MergeIntoWriter.create (tblName : String) : MergeIntoWriter :=
  { targetAs := "target"
    sourceAs := "source"
    tblName := tblName
    viewName := none
    condition := none
    matchedActions := []
    notMatchedActions := []
    notMatchedBySourceActions := [] }

/-- Source `MergeIntoWriter.using`: stores the view name, returns self. -/
def MergeIntoWriter.using (w : MergeIntoWriter) (viewName : String) : MergeIntoWriter :=
  { w with viewName := some viewName }

/-- Source `MergeIntoWriter.on`: stores the join condition, returns self. -/
def MergeIntoWriter.on (w : MergeIntoWriter) (condition : String) : MergeIntoWriter :=
  { w with condition := some condition }

/-- Source `MergeIntoWriter._clearActions`: empties the three action lists. -/
def MergeIntoWriter.clearActions (w : MergeIntoWriter) : MergeIntoWriter :=
  { w with matchedActions := [], notMatchedActions := [], notMatchedBySourceActions := [] }

/-- The subexpression `all([self._tblName, self._viewName, self._condition])`
of `generate`: Python truthiness of the three configuration fields. -/
def MergeIntoWriter.configTruthy (w : MergeIntoWriter) : Bool :=
  pyTruthy w.tblName && pyTruthyOpt w.viewName && pyTruthyOpt w.condition

/-- The subexpression
`any([self._matchedActions, self._notMatchedActions, self._notMatchedBySourceActions])`
of `generate`: a Python list is truthy iff non-empty. -/
def MergeIntoWriter.hasActions (w : MergeIntoWriter) : Bool :=
  !w.matchedActions.isEmpty || !w.notMatchedActions.isEmpty
    || !w.notMatchedBySourceActions.isEmpty

/-- Source `MergeIntoWriter.generate`. The source checks
`not all([tblName, viewName, condition])` (Python truthiness), then
`not any([matchedActions, notMatchedActions, notMatchedBySourceActions])`,
then joins the header lines and the three action lists with newlines and
clears the action lists. Both raises happen before any mutation, so the
state component of the result is the input state on the error paths. -/
def MergeIntoWriter.generate (w : MergeIntoWriter) :
    Except MergeError String × MergeIntoWriter :=
  if !w.configTruthy then
    (Except.error MergeError.missingConfiguration, w)
  else if !w.hasActions then
    (Except.error MergeError.noActions, w)
  else
    (Except.ok (strJoin "\n"
      (["MERGE INTO " ++ w.tblName ++ " AS " ++ w.targetAs,
        "USING " ++ w.viewName.getD "" ++ " AS " ++ w.sourceAs,
        "ON " ++ w.condition.getD ""]
       ++ w.matchedActions ++ w.notMatchedActions ++ w.notMatchedBySourceActions)),
     w.clearActions)

/-- Branch scope `MergeIntoWriter.WhenMatched`: back-reference plus the
optional extra predicate. -/
structure MergeIntoWriter.WhenMatched where
  writer : MergeIntoWriter
  condition : Option String
deriving DecidableEq, Repr

/-- Source `MergeIntoWriter.whenMatched`. -/
def MergeIntoWriter.whenMatched (w : MergeIntoWriter) (condition : Option String) :
    MergeIntoWriter.WhenMatched :=
  ⟨w, condition⟩

/-- Source `WhenMatched._genWhen`: `"WHEN MATCHED AND <c>"` if the predicate is
truthy, else `"WHEN MATCHED"`. -/
def MergeIntoWriter.WhenMatched.genWhen (s : MergeIntoWriter.WhenMatched) : String :=
  if pyTruthyOpt s.condition then "WHEN MATCHED AND " ++ s.condition.getD ""
  else "WHEN MATCHED"

/-- Source `WhenMatched.updateAll`: appends to `matchedActions`. -/
def MergeIntoWriter.WhenMatched.updateAll (s : MergeIntoWriter.WhenMatched) :
    MergeIntoWriter :=
  { s.writer with
    matchedActions := s.writer.matchedActions ++ [s.genWhen ++ " THEN UPDATE SET *"] }

/-- Source `WhenMatched.updateExpr`: appends to `matchedActions`. -/
def MergeIntoWriter.WhenMatched.updateExpr (s : MergeIntoWriter.WhenMatched)
    (set : String) : MergeIntoWriter :=
  { s.writer with
    matchedActions := s.writer.matchedActions ++ [s.genWhen ++ " THEN UPDATE SET " ++ set] }

/-- Source `WhenMatched.delete`: appends to `matchedActions`. -/
def MergeIntoWriter.WhenMatched.delete (s : MergeIntoWriter.WhenMatched) :
    MergeIntoWriter :=
  { s.writer with
    matchedActions := s.writer.matchedActions ++ [s.genWhen ++ " THEN DELETE"] }

/-- Branch scope `MergeIntoWriter.WhenNotMatched`. -/
structure MergeIntoWriter.WhenNotMatched where
  writer : MergeIntoWriter
  condition : Option String
deriving DecidableEq, Repr

/-- Source `MergeIntoWriter.whenNotMatched`. -/
def MergeIntoWriter.whenNotMatched (w : MergeIntoWriter) (condition : Option String) :
    MergeIntoWriter.WhenNotMatched :=
  ⟨w, condition⟩

/-- Source `WhenNotMatched._genWhen`. -/
def MergeIntoWriter.WhenNotMatched.genWhen (s : MergeIntoWriter.WhenNotMatched) : String :=
  if pyTruthyOpt s.condition then "WHEN NOT MATCHED AND " ++ s.condition.getD ""
  else "WHEN NOT MATCHED"

/-- Source `WhenNotMatched.insertAll`: appends to `notMatchedActions`. -/
def MergeIntoWriter.WhenNotMatched.insertAll (s : MergeIntoWriter.WhenNotMatched) :
    MergeIntoWriter :=
  { s.writer with
    notMatchedActions := s.writer.notMatchedActions ++ [s.genWhen ++ " THEN INSERT *"] }

/-- Source `WhenNotMatched.insertExpr`: appends to `notMatchedActions`. -/
def MergeIntoWriter.WhenNotMatched.insertExpr (s : MergeIntoWriter.WhenNotMatched)
    (values : String) : MergeIntoWriter :=
  { s.writer with
    notMatchedActions := s.writer.notMatchedActions ++ [s.genWhen ++ " THEN INSERT " ++ values] }

/-- Branch scope `MergeIntoWriter.WhenNotMatchedBySource`. -/
structure MergeIntoWriter.WhenNotMatchedBySource where
  writer : MergeIntoWriter
  condition : Option String
deriving DecidableEq, Repr

/-- Source `MergeIntoWriter.whenNotMatchedBySource`. -/
def MergeIntoWriter.whenNotMatchedBySource (w : MergeIntoWriter)
    (condition : Option String) : MergeIntoWriter.WhenNotMatchedBySource :=
  ⟨w, condition⟩

/-- Source `WhenNotMatchedBySource._genWhen`. -/
def MergeIntoWriter.WhenNotMatchedBySource.genWhen
    (s : MergeIntoWriter.WhenNotMatchedBySource) : String :=
  if pyTruthyOpt s.condition then "WHEN NOT MATCHED BY SOURCE AND " ++ s.condition.getD ""
  else "WHEN NOT MATCHED BY SOURCE"

/-- Source `WhenNotMatchedBySource.updateAll`: appends to `notMatchedBySourceActions`. -/
def MergeIntoWriter.WhenNotMatchedBySource.updateAll
    (s : MergeIntoWriter.WhenNotMatchedBySource) : MergeIntoWriter :=
  { s.writer with
    notMatchedBySourceActions :=
      s.writer.notMatchedBySourceActions ++ [s.genWhen ++ " THEN UPDATE SET *"] }

/-- Source `WhenNotMatchedBySource.updateExpr`: appends to `notMatchedBySourceActions`. -/
def MergeIntoWriter.WhenNotMatchedBySource.updateExpr
    (s : MergeIntoWriter.WhenNotMatchedBySource) (set : String) : MergeIntoWriter :=
  { s.writer with
    notMatchedBySourceActions :=
      s.writer.notMatchedBySourceActions ++ [s.genWhen ++ " THEN UPDATE SET " ++ set] }

/-- Source `WhenNotMatchedBySource.delete`: appends to `notMatchedBySourceActions`. -/
def MergeIntoWriter.WhenNotMatchedBySource.delete
    (s : MergeIntoWriter.WhenNotMatchedBySource) : MergeIntoWriter :=
  { s.writer with
    notMatchedBySourceActions :=
      s.writer.notMatchedBySourceActions ++ [s.genWhen ++ " THEN DELETE"] }

/-- Source `MergeUtils._genIdCondition` (utils.py): joins
`target.<c> = source.<c>` fragments with `" AND "`. -/
def MergeUtils.genIdCondition (idColsName : List String) : String :=
  strJoin " AND "
    (idColsName.map (fun idColName => "target." ++ idColName ++ " = source." ++ idColName))

/-- Source `MergeUtils._genPartitionCondition`: zips the two lists (Python `zip`
truncates to the shorter), producing `target.<c> IN (<v>)` fragments joined
with `" AND "`. -/
def MergeUtils.genPartitionCondition (partitionColsName partitionValues : List String) :
    String :=
  strJoin " AND "
    ((partitionColsName.zip partitionValues).map
      (fun p => "target." ++ p.1 ++ " IN (" ++ p.2 ++ ")"))

/-- Source `MergeUtils.genCondition`: id condition, plus the partition condition
when both optional partition arguments are truthy (non-`None`, non-empty). -/
def MergeUtils.genCondition (idColsName : List String)
    (partitionColsName partitionValues : Option (List String)) : String :=
  let idCondition := MergeUtils.genIdCondition idColsName
  if pyTruthyOptList partitionColsName && pyTruthyOptList partitionValues then
    idCondition ++ " AND "
      ++ MergeUtils.genPartitionCondition (partitionColsName.getD []) (partitionValues.getD [])
  else
    idCondition

/-- Source `MergeUtils.genSet`: `ignoreColsName or set()` defaults the exclusion
collection to empty; joins `<c> = source.<c>` with `", "` for the columns not
in it. The Python comprehension
`[f(c) for c in cols if c not in ignore]` is the map over the filtered list. -/
def MergeUtils.genSet (colsName : List String)
    (ignoreColsName : Option (List String)) : String :=
  let ignore := ignoreColsName.getD []
  strJoin ", "
    ((colsName.filter (fun colName => !ignore.contains colName)).map
      (fun colName => colName ++ " = source." ++ colName))

/-- Source `MergeUtils.genValues`: column list and `source.`-prefixed value list. -/
def MergeUtils.genValues (colsName : List String) : String :=
  "(" ++ strJoin ", " colsName ++ ") "
    ++ "VALUES "
    ++ "(" ++ strJoin ", " (colsName.map (fun colName => "source." ++ colName)) ++ ")"

/-- Spec-side rendering of the closed form
`target.k1 = source.k1 AND ... AND target.kn = source.kn` for `matchCondition`,
written from the spec's words, to be compared with `MergeUtils.genIdCondition`. -/
def matchConditionSpec : List String → String
  | [] => ""
  | [k] => "target." ++ k ++ " = source." ++ k
  | k :: k2 :: ks =>
      "target." ++ k ++ " = source." ++ k ++ " AND " ++ matchConditionSpec (k2 :: ks)

/-- Spec-side rendering for `partitionCondition`: pair the two sequences
positionally, truncating to the shorter, produce `target.<col> IN (<values>)`
per pair, join with `" AND "`; written from the spec's words, to be compared
with `MergeUtils.genPartitionCondition`. -/
def partitionConditionSpec : List String → List String → String
  | [], _ => ""
  | _ :: _, [] => ""
  | [c], v :: _ => "target." ++ c ++ " IN (" ++ v ++ ")"
  | c :: _ :: _, [v] => "target." ++ c ++ " IN (" ++ v ++ ")"
  | c :: c2 :: cs, v :: v2 :: vs =>
      "target." ++ c ++ " IN (" ++ v ++ ")" ++ " AND "
        ++ partitionConditionSpec (c2 :: cs) (v2 :: vs)

/-- Spec-side fragment list for `setClause`: keep, in order, the fragment
`<col> = source.<col>` for every column the exclusion predicate rejects;
written from the spec's words, to be compared with `MergeUtils.genSet`. -/
def setClauseSpecFrags (excl : String → Bool) : List String → List String
  | [] => []
  | c :: cs =>
      if excl c then setClauseSpecFrags excl cs
      else (c ++ " = source." ++ c) :: setClauseSpecFrags excl cs

/-- A concrete configured writer, for witnesses. -/
def sampleWriter : MergeIntoWriter :=
  ((MergeIntoWriter.create "lh.Sales").using "vw_sales").on "target.id = source.id"

/-- Source `sampleWriter` with one matched and one not-matched action recorded. -/
def sampleReady : MergeIntoWriter :=
  ((sampleWriter.whenMatched none).updateAll.whenNotMatched none).insertAll

end PyChan
namespace PyChan

theorem genIdCondition_eq_matchConditionSpec :
    ∀ ks : List String, MergeUtils.genIdCondition ks = matchConditionSpec ks
  | [] => rfl
  | [_] => rfl
  | k :: k2 :: ks => by
      have ih := genIdCondition_eq_matchConditionSpec (k2 :: ks)
      show ("target." ++ k ++ " = source." ++ k) ++ " AND "
          ++ MergeUtils.genIdCondition (k2 :: ks)
        = "target." ++ k ++ " = source." ++ k ++ " AND " ++ matchConditionSpec (k2 :: ks)
      rw [ih]

theorem genPartitionCondition_eq_partitionConditionSpec :
    ∀ cs vs : List String,
      MergeUtils.genPartitionCondition cs vs = partitionConditionSpec cs vs
  | [], [] => rfl
  | [], _ :: _ => rfl
  | [_], [] => rfl
  | _ :: _ :: _, [] => rfl
  | [_], _ :: _ => rfl
  | _ :: _ :: _, [_] => rfl
  | c :: c2 :: cs, v :: v2 :: vs => by
      have ih := genPartitionCondition_eq_partitionConditionSpec (c2 :: cs) (v2 :: vs)
      show ("target." ++ c ++ " IN (" ++ v ++ ")") ++ " AND "
          ++ MergeUtils.genPartitionCondition (c2 :: cs) (v2 :: vs)
        = "target." ++ c ++ " IN (" ++ v ++ ")" ++ " AND "
          ++ partitionConditionSpec (c2 :: cs) (v2 :: vs)
      rw [ih]

theorem filter_map_eq_setClauseSpecFrags (excl : String → Bool) :
    ∀ cols : List String,
      (cols.filter (fun c => !excl c)).map (fun c => c ++ " = source." ++ c)
        = setClauseSpecFrags excl cols
  | [] => rfl
  | c :: cs => by
      have ih := filter_map_eq_setClauseSpecFrags excl cs
      by_cases h : excl c = true
      · simp [List.filter_cons, setClauseSpecFrags, h, ih]
      · simp [List.filter_cons, setClauseSpecFrags, h, ih]

theorem setClauseSpecFrags_nil_excl :
    ∀ cols : List String,
      setClauseSpecFrags (fun c => ([] : List String).contains c) cols
        = cols.map (fun c => c ++ " = source." ++ c)
  | [] => rfl
  | c :: cs => by
      have ih := setClauseSpecFrags_nil_excl cs
      show (c ++ " = source." ++ c) :: setClauseSpecFrags _ cs = _
      rw [ih, List.map_cons]

/-- C5: `matchCondition` on `[k1,...,kn]` is exactly
`target.k1 = source.k1 AND ... AND target.kn = source.kn` (order-preserving),
and on the empty sequence it is the empty string. -/
theorem genIdCondition_matches_spec (ks : List String) :
    MergeUtils.genIdCondition ks = matchConditionSpec ks
      ∧ MergeUtils.genIdCondition [] = "" :=
  ⟨genIdCondition_eq_matchConditionSpec ks, rfl⟩

/-- C7: `partitionCondition` pairs the column and value sequences positionally,
truncating to the shorter, rendering `target.<col> IN (<values>)` fragments
joined by `" AND "` with the values inserted verbatim. -/
theorem genPartitionCondition_matches_spec (cs vs : List String) :
    MergeUtils.genPartitionCondition cs vs = partitionConditionSpec cs vs :=
  genPartitionCondition_eq_partitionConditionSpec cs vs

/-- C8: `setClause` keeps, in input order, exactly the columns not excluded,
rendering `<col> = source.<col>` joined by `", "`; with no exclusion argument
every column is included. -/
theorem genSet_matches_spec (cols ex : List String) :
    MergeUtils.genSet cols (some ex)
        = strJoin ", " (setClauseSpecFrags (fun c => ex.contains c) cols)
      ∧ MergeUtils.genSet cols none
        = strJoin ", " (cols.map (fun c => c ++ " = source." ++ c)) := by
  constructor
  · have h := filter_map_eq_setClauseSpecFrags (fun c => ex.contains c) cols
    show strJoin ", "
        ((cols.filter (fun c => !(ex.contains c))).map (fun c => c ++ " = source." ++ c)) = _
    rw [h]
  · have h := filter_map_eq_setClauseSpecFrags (fun c => ([] : List String).contains c) cols
    have h2 := setClauseSpecFrags_nil_excl cols
    show strJoin ", "
        ((cols.filter (fun c => !(([] : List String).contains c))).map
          (fun c => c ++ " = source." ++ c)) = _
    rw [h, h2]

/-- C6: `condition` with no partition arguments is `matchCondition`; with both
partition arguments present and non-empty it is
`matchCondition ++ " AND " ++ partitionCondition`. -/
theorem genCondition_decomposition (ks : List String) :
    MergeUtils.genCondition ks none none = MergeUtils.genIdCondition ks
      ∧ ∀ pc pv : List String, pc ≠ [] → pv ≠ [] →
          MergeUtils.genCondition ks (some pc) (some pv)
            = MergeUtils.genIdCondition ks ++ " AND "
              ++ MergeUtils.genPartitionCondition pc pv := by
  refine ⟨rfl, ?_⟩
  intro pc pv hpc hpv
  cases pc with
  | nil => exact absurd rfl hpc
  | cons c cs =>
      cases pv with
      | nil => exact absurd rfl hpv
      | cons v vs => rfl

/-- Witness for C6 at concrete input. -/
theorem genCondition_decomposition_witness :
    (["y"] : List String) ≠ []
      ∧ MergeUtils.genCondition ["id"] (some ["y"]) (some ["'1'"])
        = MergeUtils.genIdCondition ["id"] ++ " AND "
          ++ MergeUtils.genPartitionCondition ["y"] ["'1'"] :=
  ⟨by decide, (genCondition_decomposition ["id"]).2 ["y"] ["'1'"] (by decide) (by decide)⟩

/-- C9: for each branch kind, an empty-string predicate yields the same plain
prefix as no predicate at all (the predicate is tested for truthiness). -/
theorem genWhen_empty_predicate (w : MergeIntoWriter) :
    (w.whenMatched (some "")).genWhen = "WHEN MATCHED"
      ∧ (w.whenMatched none).genWhen = "WHEN MATCHED"
      ∧ (w.whenNotMatched (some "")).genWhen = "WHEN NOT MATCHED"
      ∧ (w.whenNotMatched none).genWhen = "WHEN NOT MATCHED"
      ∧ (w.whenNotMatchedBySource (some "")).genWhen = "WHEN NOT MATCHED BY SOURCE"
      ∧ (w.whenNotMatchedBySource none).genWhen = "WHEN NOT MATCHED BY SOURCE" :=
  ⟨rfl, rfl, rfl, rfl, rfl, rfl⟩

end PyChan
namespace PyChan

theorem generate_of_not_configTruthy (w : MergeIntoWriter)
    (h : w.configTruthy = false) :
    w.generate = (Except.error MergeError.missingConfiguration, w) := by
  simp [MergeIntoWriter.generate, h]

theorem generate_of_not_hasActions (w : MergeIntoWriter)
    (h1 : w.configTruthy = true) (h2 : w.hasActions = false) :
    w.generate = (Except.error MergeError.noActions, w) := by
  simp [MergeIntoWriter.generate, h1, h2]

theorem generate_of_ready (w : MergeIntoWriter)
    (h1 : w.configTruthy = true) (h2 : w.hasActions = true) :
    w.generate = (Except.ok (strJoin "\n"
      (["MERGE INTO " ++ w.tblName ++ " AS " ++ w.targetAs,
        "USING " ++ w.viewName.getD "" ++ " AS " ++ w.sourceAs,
        "ON " ++ w.condition.getD ""]
       ++ w.matchedActions ++ w.notMatchedActions ++ w.notMatchedBySourceActions)),
     w.clearActions) := by
  simp [MergeIntoWriter.generate, h1, h2]

theorem configTruthy_false_iff (w : MergeIntoWriter) :
    w.configTruthy = false ↔
      (w.tblName = "" ∨ w.viewName = none ∨ w.viewName = some ""
        ∨ w.condition = none ∨ w.condition = some "") := by
  cases hv : w.viewName <;> cases hc : w.condition
  all_goals simp [MergeIntoWriter.configTruthy, pyTruthy, pyTruthyOpt, hv, hc, bne_iff_ne]
  all_goals tauto

theorem hasActions_false_iff (w : MergeIntoWriter) :
    w.hasActions = false ↔
      (w.matchedActions = [] ∧ w.notMatchedActions = []
        ∧ w.notMatchedBySourceActions = []) := by
  simp [MergeIntoWriter.hasActions, and_assoc]

theorem strAppend_assoc (a b c : String) : a ++ b ++ c = a ++ (b ++ c) := by
  cases a with | mk la =>
  cases b with | mk lb =>
  cases c with | mk lc =>
  show String.mk ((la ++ lb) ++ lc) = String.mk (la ++ (lb ++ lc))
  rw [List.append_assoc]

theorem configTruthy_of_parts (w : MergeIntoWriter) (ht : w.tblName ≠ "")
    {v : String} (hv : w.viewName = some v) (hv' : v ≠ "")
    {c : String} (hc : w.condition = some c) (hc' : c ≠ "") :
    w.configTruthy = true := by
  simp [MergeIntoWriter.configTruthy, pyTruthy, pyTruthyOpt, hv, hc, bne_iff_ne,
    ht, hv', hc']

theorem hasActions_of_parts (w : MergeIntoWriter)
    (ha : w.matchedActions ≠ [] ∨ w.notMatchedActions ≠ []
      ∨ w.notMatchedBySourceActions ≠ []) :
    w.hasActions = true := by
  rcases ha with h | h | h <;> simp [MergeIntoWriter.hasActions, h]

/-- C1: with the configuration set to non-empty values and at least one
recorded action, `generate` returns the newline-join of the three header
lines followed by the three action lists in order, and clears the action
lists while keeping the configuration fields. -/
theorem generate_success (w : MergeIntoWriter)
    (hTa : w.targetAs = "target") (hSa : w.sourceAs = "source")
    (ht : w.tblName ≠ "") (v : String) (hv : w.viewName = some v) (hv' : v ≠ "")
    (c : String) (hc : w.condition = some c) (hc' : c ≠ "")
    (ha : w.matchedActions ≠ [] ∨ w.notMatchedActions ≠ []
      ∨ w.notMatchedBySourceActions ≠ []) :
    w.generate = (Except.ok (strJoin "\n"
        (["MERGE INTO " ++ w.tblName ++ " AS target",
          "USING " ++ v ++ " AS source",
          "ON " ++ c]
         ++ w.matchedActions ++ w.notMatchedActions ++ w.notMatchedBySourceActions)),
      { w with matchedActions := [], notMatchedActions := [],
               notMatchedBySourceActions := [] }) := by
  have h1 := configTruthy_of_parts w ht hv hv' hc hc'
  have h2 := hasActions_of_parts w ha
  rw [generate_of_ready w h1 h2, Prod.mk.injEq]
  refine ⟨?_, rfl⟩
  rw [hv, hc, Option.getD_some, Option.getD_some, hTa, hSa,
    strAppend_assoc ("MERGE INTO " ++ w.tblName) " AS " "target",
    strAppend_assoc ("USING " ++ v) " AS " "source"]
  rfl

/-- Witness for C1 at a concrete builder chain. -/
theorem generate_success_witness :
    sampleReady.generate = (Except.ok (strJoin "\n"
        (["MERGE INTO " ++ sampleReady.tblName ++ " AS target",
          "USING " ++ "vw_sales" ++ " AS source",
          "ON " ++ "target.id = source.id"]
         ++ sampleReady.matchedActions ++ sampleReady.notMatchedActions
         ++ sampleReady.notMatchedBySourceActions)),
      { sampleReady with matchedActions := [], notMatchedActions := [],
                         notMatchedBySourceActions := [] }) :=
  generate_success sampleReady rfl rfl (by decide) "vw_sales" rfl (by decide)
    "target.id = source.id" rfl (by decide) (Or.inl (by decide))

/-- C2: `generate` yields `MissingConfigurationError` exactly when the target
table, the source relation, or the join condition is unset or empty; the
mutators are total and store exactly what they are given, empty or not. -/
theorem generate_missingConfiguration_iff (w : MergeIntoWriter) :
    ((w.generate.1 = Except.error MergeError.missingConfiguration) ↔
        (w.tblName = "" ∨ w.viewName = none ∨ w.viewName = some ""
          ∨ w.condition = none ∨ w.condition = some ""))
      ∧ (∀ t, (MergeIntoWriter.create t).tblName = t)
      ∧ (∀ v, w.using v = { w with viewName := some v })
      ∧ (∀ c, w.on c = { w with condition := some c }) := by
  refine ⟨?_, fun _ => rfl, fun _ => rfl, fun _ => rfl⟩
  rw [← configTruthy_false_iff]
  constructor
  · intro h
    by_cases hA : w.configTruthy = false
    · exact hA
    · exfalso
      rw [Bool.not_eq_false] at hA
      by_cases hB : w.hasActions = false
      · rw [generate_of_not_hasActions w hA hB] at h
        simp at h
      · rw [Bool.not_eq_false] at hB
        rw [generate_of_ready w hA hB] at h
        simp at h
  · intro h
    rw [generate_of_not_configTruthy w h]

/-- C3 counterexample: a freshly created writer has all three action
sequences empty, yet `generate` raises `MissingConfigurationError`, not
`NoActionsError`, refuting the unconditional "iff". -/
theorem noActions_iff_counterexample :
    (MergeIntoWriter.create "tbl").matchedActions = []
      ∧ (MergeIntoWriter.create "tbl").notMatchedActions = []
      ∧ (MergeIntoWriter.create "tbl").notMatchedBySourceActions = []
      ∧ (MergeIntoWriter.create "tbl").generate.1
          = Except.error MergeError.missingConfiguration
      ∧ ¬((MergeIntoWriter.create "tbl").generate.1
          = Except.error MergeError.noActions) := by
  decide

/-- C3 (amended): `generate` yields `NoActionsError` iff the configuration is
complete (truthy) and all three action sequences are empty; after a successful
render the resulting state re-renders to `NoActionsError`, and re-adding a
matched branch renders successfully with the original configuration in the
output. -/
theorem generate_noActions_characterization (w : MergeIntoWriter) :
    ((w.generate.1 = Except.error MergeError.noActions) ↔
        (w.configTruthy = true ∧ w.matchedActions = [] ∧ w.notMatchedActions = []
          ∧ w.notMatchedBySourceActions = []))
      ∧ (∀ s w', w.generate = (Except.ok s, w') →
          (w'.generate.1 = Except.error MergeError.noActions
            ∧ ((w'.whenMatched none).updateAll).generate
                = (Except.ok (strJoin "\n"
                    ["MERGE INTO " ++ w.tblName ++ " AS " ++ w.targetAs,
                     "USING " ++ w.viewName.getD "" ++ " AS " ++ w.sourceAs,
                     "ON " ++ w.condition.getD "",
                     "WHEN MATCHED THEN UPDATE SET *"]), w'))) := by
  constructor
  · constructor
    · intro h
      by_cases hA : w.configTruthy = true
      · by_cases hB : w.hasActions = false
        · exact ⟨hA, (hasActions_false_iff w).mp hB⟩
        · exfalso
          rw [Bool.not_eq_false] at hB
          rw [generate_of_ready w hA hB] at h
          simp at h
      · exfalso
        rw [Bool.not_eq_true] at hA
        rw [generate_of_not_configTruthy w hA] at h
        simp at h
    · rintro ⟨hA, h1, h2, h3⟩
      have hB : w.hasActions = false := (hasActions_false_iff w).mpr ⟨h1, h2, h3⟩
      rw [generate_of_not_hasActions w hA hB]
  · intro s w' hok
    by_cases hA : w.configTruthy = true
    · by_cases hB : w.hasActions = true
      · rw [generate_of_ready w hA hB] at hok
        have hw' : w.clearActions = w' := congrArg Prod.snd hok
        subst hw'
        have hA' : w.clearActions.configTruthy = true := hA
        have hB' : w.clearActions.hasActions = false := rfl
        constructor
        · rw [generate_of_not_hasActions _ hA' hB']
        · have hA2 : ((w.clearActions.whenMatched none).updateAll).configTruthy = true := hA
          have hB2 : ((w.clearActions.whenMatched none).updateAll).hasActions = true := rfl
          rw [generate_of_ready _ hA2 hB2]
          rfl
      · rw [Bool.not_eq_true] at hB
        rw [generate_of_not_hasActions w hA hB] at hok
        simp at hok
    · rw [Bool.not_eq_true] at hA
      rw [generate_of_not_configTruthy w hA] at hok
      simp at hok

/-- Witness for C3 (amended): the second-render and re-add behavior at a
concrete successful render. -/
theorem generate_noActions_characterization_witness :
    sampleWriter.generate.1 = Except.error MergeError.noActions
      ∧ ((sampleWriter.whenMatched none).updateAll).generate
          = (Except.ok (strJoin "\n"
              ["MERGE INTO " ++ sampleReady.tblName ++ " AS " ++ sampleReady.targetAs,
               "USING " ++ sampleReady.viewName.getD "" ++ " AS " ++ sampleReady.sourceAs,
               "ON " ++ sampleReady.condition.getD "",
               "WHEN MATCHED THEN UPDATE SET *"]), sampleWriter) :=
  (generate_noActions_characterization sampleReady).2
    (strJoin "\n" ["MERGE INTO lh.Sales AS target", "USING vw_sales AS source",
      "ON target.id = source.id", "WHEN MATCHED THEN UPDATE SET *",
      "WHEN NOT MATCHED THEN INSERT *"])
    sampleWriter (by decide)

/-- C4: `generate` either fully succeeds — returning the statement and the
state with the three action lists cleared and every configuration field
kept — or fully fails with an error and the state exactly as before. -/
theorem generate_atomic (w : MergeIntoWriter) :
    ((∃ s, w.generate = (Except.ok s, w.clearActions))
        ∨ (∃ e, w.generate = (Except.error e, w)))
      ∧ w.clearActions.targetAs = w.targetAs
      ∧ w.clearActions.sourceAs = w.sourceAs
      ∧ w.clearActions.tblName = w.tblName
      ∧ w.clearActions.viewName = w.viewName
      ∧ w.clearActions.condition = w.condition
      ∧ w.clearActions.matchedActions = []
      ∧ w.clearActions.notMatchedActions = []
      ∧ w.clearActions.notMatchedBySourceActions = [] := by
  refine ⟨?_, rfl, rfl, rfl, rfl, rfl, rfl, rfl, rfl⟩
  by_cases hA : w.configTruthy = true
  · by_cases hB : w.hasActions = true
    · exact Or.inl ⟨_, generate_of_ready w hA hB⟩
    · rw [Bool.not_eq_true] at hB
      exact Or.inr ⟨_, generate_of_not_hasActions w hA hB⟩
  · rw [Bool.not_eq_true] at hA
    exact Or.inr ⟨_, generate_of_not_configTruthy w hA⟩

/-- C10: opening a branch scope changes nothing; each scope action appends
exactly one line to exactly its branch's sequence, leaving the other two
sequences and the configuration unchanged. -/
theorem branch_scope_frame (w : MergeIntoWriter) (copt : Option String)
    (set values : String) :
    (w.whenMatched copt).writer = w
      ∧ (w.whenNotMatched copt).writer = w
      ∧ (w.whenNotMatchedBySource copt).writer = w
      ∧ (w.whenMatched copt).updateAll
          = { w with matchedActions :=
                w.matchedActions ++ [(w.whenMatched copt).genWhen ++ " THEN UPDATE SET *"] }
      ∧ (w.whenMatched copt).updateExpr set
          = { w with matchedActions :=
                w.matchedActions ++ [(w.whenMatched copt).genWhen ++ " THEN UPDATE SET " ++ set] }
      ∧ (w.whenMatched copt).delete
          = { w with matchedActions :=
                w.matchedActions ++ [(w.whenMatched copt).genWhen ++ " THEN DELETE"] }
      ∧ (w.whenNotMatched copt).insertAll
          = { w with notMatchedActions :=
                w.notMatchedActions ++ [(w.whenNotMatched copt).genWhen ++ " THEN INSERT *"] }
      ∧ (w.whenNotMatched copt).insertExpr values
          = { w with notMatchedActions :=
                w.notMatchedActions ++ [(w.whenNotMatched copt).genWhen ++ " THEN INSERT " ++ values] }
      ∧ (w.whenNotMatchedBySource copt).updateAll
          = { w with notMatchedBySourceActions :=
                w.notMatchedBySourceActions
                  ++ [(w.whenNotMatchedBySource copt).genWhen ++ " THEN UPDATE SET *"] }
      ∧ (w.whenNotMatchedBySource copt).updateExpr set
          = { w with notMatchedBySourceActions :=
                w.notMatchedBySourceActions
                  ++ [(w.whenNotMatchedBySource copt).genWhen ++ " THEN UPDATE SET " ++ set] }
      ∧ (w.whenNotMatchedBySource copt).delete
          = { w with notMatchedBySourceActions :=
                w.notMatchedBySourceActions
                  ++ [(w.whenNotMatchedBySource copt).genWhen ++ " THEN DELETE"] } :=
  ⟨rfl, rfl, rfl, rfl, rfl, rfl, rfl, rfl, rfl, rfl, rfl⟩

end PyChan
